import Mathlib

set_option maxHeartbeats 1000000
set_option maxRecDepth 4000

namespace Novel

/-! Shallow embedding of the EPUB container engine of the Novel-Reader
repository: the reader `parseEpubFile` (src/unnamed/part_003), the writer
`generateEpub` and the markdown fragment renderer `simpleMarkdownToHtml`
(src/unnamed/part_007).  JavaScript strings are modelled by `String`
(JS `.length`, which counts UTF-16 units, coincides with the code-point
count on all inputs considered here, none of which involve astral-plane
characters); sparse JS objects keyed by numbers are modelled by
`Nat → Option String` (lookup-only maps) or by association lists in the
numeric iteration order of `Object.entries` (maps that are iterated). -/

/-- Character class of the JavaScript regex backslash-s and of
`String.prototype.trim`: space, tab, line feed, carriage return, vertical
tab, form feed, the Unicode space separators (NBSP U+00A0, U+1680,
U+2000 to U+200A, LS U+2028, PS U+2029, U+202F, U+205F, U+3000) and the
BOM U+FEFF. -/
def jsWsChar (c : Char) : Bool :=
  c == ' ' || c == '\t' || c == '\n' || c == '\r' || c == '\x0b' || c == '\x0c' ||
  c.toNat == 0xA0 || c.toNat == 0x1680 ||
  (0x2000 <= c.toNat && c.toNat <= 0x200A) ||
  c.toNat == 0x2028 || c.toNat == 0x2029 || c.toNat == 0x202F ||
  c.toNat == 0x205F || c.toNat == 0x3000 || c.toNat == 0xFEFF

/-- JavaScript `String.prototype.trim` on a character list. -/
def jsTrimList (l : List Char) : List Char :=
  ((l.dropWhile jsWsChar).reverse.dropWhile jsWsChar).reverse

/-- JavaScript `String.prototype.trim`. -/
def jsTrim (s : String) : String :=
  String.mk (jsTrimList s.data)

/-- Does `pat` occur at the head of `l`? -/
def listLeads : List Char → List Char → Bool
  | [], _ => true
  | _ :: _, [] => false
  | a :: as, b :: bs => a == b && listLeads as bs

/-- First occurrence of `tok` in `l`: returns the part before the occurrence
and the part after it, if any occurrence exists. -/
def findTok (tok : List Char) : List Char → Option (List Char × List Char)
  | [] => none
  | c :: rest =>
    if listLeads tok (c :: rest) then some ([], List.drop tok.length (c :: rest))
    else
      match findTok tok rest with
      | some (b, a) => some (c :: b, a)
      | none => none

/-- Whether `pat` occurs anywhere in `l`. -/
def subOccursList (pat : List Char) : List Char → Bool
  | [] => listLeads pat []
  | c :: rest => listLeads pat (c :: rest) || subOccursList pat rest

/-- Whether the string `pat` occurs as a substring of `s`. -/
def subOccurs (pat s : String) : Bool :=
  subOccursList pat.data s.data

/-- One global, lazy, single-line JavaScript replace of the form
`str.replace(/T(.*?)T/g, pre ++ \x24;1 ++ post)` for a one- or two-character
delimiter `T = t :: ts`: repeatedly find the leftmost delimiter, then the
next delimiter after it (the lazy `(.*?)`), wrap the characters between them
with `pre`/`post`, and continue after the closing delimiter; scanning never
re-enters emitted replacement text, matching the `g` flag.  The fuel
argument starts at the length of the list, which bounds the number of
matches, so the fuel never runs out; it only makes the recursion
structural. -/
def repAux (t : Char) (ts : List Char) (pre post : String) : Nat → List Char → String
  | 0, l => String.mk l
  | fuel + 1, l =>
    match findTok (t :: ts) l with
    | none => String.mk l
    | some (b1, r1) =>
      match findTok (t :: ts) r1 with
      | none => String.mk l
      | some (cap, r2) =>
        String.mk b1 ++ pre ++ String.mk cap ++ post ++ repAux t ts pre post fuel r2

/-- `str.replace(/T(.*?)T/g, pre + "$1" + post)`. -/
def replaceSpans (t : Char) (ts : List Char) (pre post : String) (s : String) : String :=
  repAux t ts pre post s.data.length s.data

/-- The first inline replacement of `simpleMarkdownToHtml`:
`content.replace(/\*\*(.*?)\*\*\x2fg, ...strong...)`. -/
def replaceBold (s : String) : String :=
  replaceSpans '*' ['*'] "<strong style=\"color: #451a03;\">" "</strong>" s

/-- The second inline replacement of `simpleMarkdownToHtml`:
`content.replace(/\*(.*?)\*\x2fg, ...em...)`. -/
def replaceItalic (s : String) : String :=
  replaceSpans '*' [] "<em style=\"color: #92400e;\">" "</em>" s

/-- The third inline replacement of `simpleMarkdownToHtml`: backtick code
spans become `<code ...>` spans. -/
def replaceCode (s : String) : String :=
  replaceSpans '\x60' [] "<code style=\"background: #fef3c7; color: #92400e; padding: 2px 4px; border-radius: 4px; font-family: monospace;\">" "</code>" s

/-- JavaScript `text.split('\n')` on a character list. -/
def splitNl : List Char → List (List Char)
  | [] => [[]]
  | c :: rest =>
    match splitNl rest with
    | [] => [[]]
    | g :: gs => if c = '\n' then [] :: g :: gs else (c :: g) :: gs

/-- `Array.prototype.join(sep)`. -/
def joinSep (sep : String) : List String → String
  | [] => ""
  | [x] => x
  | x :: y :: xs => x ++ sep ++ joinSep sep (y :: xs)

/-- The horizontal-rule test `/^[-*]\x7b;3,\x7d;$/.test(content)`. -/
def isHrChars (content : List Char) : Bool :=
  decide (3 ≤ content.length) && content.all (fun c => c == '-' || c == '*')

/-- One line of `simpleMarkdownToHtml`: trim, then dispatch on blank line,
headings `####`/`###`/`##`/`#`, blockquote `> `, horizontal rule, and
finally the plain-paragraph branch, whose inline replacements run in the
source order bold, then italic, then code. -/
def mdLine (lineRaw : List Char) : String :=
  let content := jsTrimList lineRaw
  if content.isEmpty then "<br/>"
  else if listLeads "#### ".data content then
    "<h4 style=\"color: #92400e; margin-top: 1em;\">" ++ String.mk (content.drop 5) ++ "</h4>"
  else if listLeads "### ".data content then
    "<h3 style=\"color: #92400e; border-bottom: 1px solid #fde68a; padding-bottom: 4px;\">" ++ String.mk (content.drop 4) ++ "</h3>"
  else if listLeads "## ".data content then
    "<h2 style=\"color: #78350f;\">" ++ String.mk (content.drop 3) ++ "</h2>"
  else if listLeads "# ".data content then
    "<h1 style=\"text-align: center; color: #451a03;\">" ++ String.mk (content.drop 2) ++ "</h1>"
  else if listLeads "> ".data content then
    "<blockquote style=\"border-left: 4px solid #f59e0b; padding: 10px 15px; background: #fffbeb; font-style: italic; color: #78350f; margin: 15px 0; border-radius: 0 8px 8px 0;\">" ++ String.mk (content.drop 2) ++ "</blockquote>"
  else if isHrChars content then
    "<hr style=\"border: none; border-top: 2px dashed #fde68a; margin: 25px 0;\" />"
  else
    "<p style=\"margin-bottom: 0.8em;\">" ++ replaceCode (replaceItalic (replaceBold (String.mk content))) ++ "</p>"

/-- `simpleMarkdownToHtml` of src/unnamed/part_007 lines 16–43. -/
def simpleMarkdownToHtml (text : String) : String :=
  if text = "" then ""
  else joinSep "\n" ((splitNl text.data).map mdLine)

/-! ## The reader: `parseEpubFile` (src/unnamed/part_003)

The source reads zip entries as strings and interrogates them through
`DOMParser` queries.  `DOMParser.parseFromString` is total (it never
throws), so a file is modelled by the results of exactly the queries the
source performs on its parsed tree: the `rootfile` element's `full-path`
attribute, the `manifest > item` id/href attribute pairs, the
`spine > itemref` idref attributes in document order, the text of the
`<title>` element, the text of the first `h1`/`h2`/`h3` element, the
tag and text of every `p`/`h1`–`h6`/`div` element under `body` in document
order, and `body.textContent`. -/

/-- The tag names matched by `body.querySelectorAll('p, h1, h2, h3, h4, h5, h6, div')`. -/
inductive BTag
  | p | h1 | h2 | h3 | h4 | h5 | h6 | div
deriving DecidableEq

/-- One element returned by the block query: its tag and its `textContent`. -/
structure Block where
  tag : BTag
  text : String
deriving DecidableEq

/-- The `DOMParser` view of one archive entry: the results of every DOM
query `parseEpubFile` can perform on it. -/
structure Doc where
  rootfilePath : Option String := none
  manifestItems : List (Option String × Option String) := []
  spineIdrefs : List String := []
  titleText : Option String := none
  headingText : Option String := none
  blocks : List Block := []
  bodyText : String := ""
deriving DecidableEq

/-- A loaded zip archive: entry names paired with the `DOMParser` views of
their string contents.  `zip.file(name)` is first-match lookup. -/
def Archive := List (String × Doc)

/-- `zip.file(name)?.async('string')` followed by `DOMParser`: yields the
entry's document view, or `none` when there is no such entry. -/
def lookupFile (z : Archive) (name : String) : Option Doc :=
  match z with
  | [] => none
  | (n, d) :: rest => if n = name then some d else lookupFile rest name

/-- The chapter record produced by the parser (`Chapter` of
src/unnamed/part_000 lines 1–5: `id` is a string). -/
structure Chapter where
  id : String
  title : String
  content : String
deriving DecidableEq

/-- The manifest map `manifestItems`: each `manifest > item` node with both
an `id` and an `href` attribute is assigned in order, later assignments
overwriting earlier ones; lookup of a missing id yields `undefined`. -/
def manifestLookup (items : List (Option String × Option String)) (id : String) :
    Option String :=
  items.foldl
    (fun acc it =>
      match it with
      | (some i, some h) => if i = id then some h else acc
      | _ => acc)
    none

/-- The root-directory computation: `rootFilePath.includes('/') ?
rootFilePath.substring(0, rootFilePath.lastIndexOf('/') + 1) : ''`. -/
def dirChars : List Char → List Char
  | [] => []
  | c :: rest =>
    if '/' ∈ rest then c :: dirChars rest
    else if c = '/' then ['/'] else []

/-- Directory part of the OPF path, empty when the path has no slash. -/
def dirOf (s : String) : String :=
  String.mk (dirChars s.data)

/-- JavaScript truthiness chain `a || b` for an optional string `a`:
`undefined` and the empty string fall through to `b`. -/
def jsOr (a : Option String) (b : String) : String :=
  match a with
  | some s => if s = "" then b else s
  | none => b

/-- The paragraph-line extraction loop over the block query results:
`p` elements and `h1`–`h6` elements contribute their trimmed `textContent`
when it is non-empty; `div` elements contribute nothing. -/
def blockLines (blocks : List Block) : List String :=
  blocks.filterMap
    (fun b =>
      match b.tag with
      | BTag.div => none
      | _ => let t := jsTrim b.text; if t = "" then none else some t)

/-- The collapse of blank-line runs in the body-text fallback:
`.replace(/\n\s*\n/g, '\n\n')` with a greedy `\s*`, so one match runs from
a line feed to the last line feed of the maximal whitespace run following
it.  The fuel starts at the length of the list, which bounds the number of
scanning steps, so it never runs out. -/
def lastNl (l : List Char) : Nat :=
  l.length - 1 - (l.reverse.findIdx (fun c => c == '\n'))

/-- Fuelled scanner for `.replace(/\n\s*\n/g, '\n\n')`. -/
def collapseAux : Nat → List Char → List Char
  | _, [] => []
  | 0, l => l
  | fuel + 1, c :: rest =>
    let run := rest.takeWhile jsWsChar
    if c = '\n' && run.contains '\n' then
      '\n' :: '\n' :: collapseAux fuel (rest.drop (lastNl run + 1))
    else c :: collapseAux fuel rest

/-- `str.replace(/\n\s*\n/g, '\n\n')`. -/
def collapseBlank (s : String) : String :=
  String.mk (collapseAux s.data.length s.data)

/-- Content extraction for one chapter document: join the paragraph lines
with blank-line separators; when that is blank, fall back to the trimmed
body text with blank-line runs collapsed. -/
def extractContent (d : Doc) : String :=
  let finalContent := joinSep "\n\n" (blockLines d.blocks)
  if jsTrim finalContent = "" then collapseBlank (jsTrim d.bodyText)
  else finalContent

/-- The body of the spine loop for index `i` and reading-order id `id`:
resolve the id through the manifest (skip silently when absent), read the
resolved path (skip silently when absent), extract title and content, and
keep the chapter only when the trimmed content is longer than 10
characters; the chapter id is the 1-based spine position `i + 1`. -/
def processSpineItem (z : Archive) (manifest : List (Option String × Option String))
    (rootDir : String) (i : Nat) (id : String) : Option Chapter :=
  match manifestLookup manifest id with
  | none => none
  | some relativePath =>
    match lookupFile z (rootDir ++ relativePath) with
    | none => none
    | some d =>
      let title := jsOr d.titleText (jsOr d.headingText ("Chapter " ++ toString (i + 1)))
      let finalContent := extractContent d
      if 10 < (jsTrim finalContent).length then
        some { id := toString (i + 1), title := jsTrim title, content := finalContent }
      else none

/-- The `for` loop over `spineIds`, with `i` the running spine index. -/
def spineChapters (z : Archive) (manifest : List (Option String × Option String))
    (rootDir : String) : Nat → List String → List Chapter
  | _, [] => []
  | i, id :: rest =>
    match processSpineItem z manifest rootDir i id with
    | some c => c :: spineChapters z manifest rootDir (i + 1) rest
    | none => spineChapters z manifest rootDir (i + 1) rest

/-- The spine positions (0-based) of the retained chapters. -/
def retainedPositions (z : Archive) (manifest : List (Option String × Option String))
    (rootDir : String) : Nat → List String → List Nat
  | _, [] => []
  | i, id :: rest =>
    if (processSpineItem z manifest rootDir i id).isSome then
      i :: retainedPositions z manifest rootDir (i + 1) rest
    else retainedPositions z manifest rootDir (i + 1) rest

/-- `parseEpubFile` of src/unnamed/part_003 lines 62–151.  A thrown
`Error` is modelled as `Except.error` carrying the message string. -/
def parseEpubFile (z : Archive) : Except String (List Chapter) :=
  match lookupFile z "META-INF/container.xml" with
  | none => Except.error "无效的 EPUB 文件：缺少 container.xml"
  | some containerDoc =>
    match containerDoc.rootfilePath with
    | none => Except.error "无效的 EPUB 文件：无法找到 rootfile 路径"
    | some rootFilePath =>
      match lookupFile z rootFilePath with
      | none => Except.error "无效的 EPUB 文件：无法读取 OPF 文件"
      | some opfDoc =>
        Except.ok
          (spineChapters z opfDoc.manifestItems (dirOf rootFilePath) 0 opfDoc.spineIdrefs)

/-! ## The writer: `generateEpub` (src/unnamed/part_007)

Zip entries are modelled as an ordered list carrying each entry's name,
content and compression method: `zip.file(name, content)` appends an entry,
an explicit `\x7b compression: 'STORE' \x7d` option records STORE, and
every other entry receives the DEFLATE compression passed to
`zip.generateAsync`.  Binary `Blob` values are modelled by opaque numeric
handles.  `Math.random()...` and `new Date()...` in the package metadata
are modelled by the parameters `uuid` and `modified`.  The string constants
below are the writer's template literals, split at their interpolation
holes. -/

/-- Opaque handle standing for a binary `Blob`. -/
abbrev Blob := Nat

/-- Compression method of one archive entry. -/
inductive Compression
  | STORE | DEFLATE
deriving DecidableEq, BEq

/-- Content of one archive entry: a string or a binary blob. -/
inductive EntryContent
  | text (s : String)
  | bin (b : Blob)
deriving DecidableEq

/-- One entry of the generated archive, in insertion order. -/
structure ZipEntry where
  name : String
  content : EntryContent
  compression : Compression
deriving DecidableEq

/-- The export request `ChapterExportData` (src/unnamed/part_007 lines
3–10).  `translations` and `analyses` are lookup-only sparse maps;
`paragraphAudioBlobs` is the `Object.entries`/`Object.keys` iteration view
of the sparse audio map, an association list in ascending numeric key
order. -/
structure ChapterExportData where
  title : String
  paragraphs : List String
  translations : Nat → Option String
  analyses : Nat → Option String
  audioBlob : Option Blob := none
  paragraphAudioBlobs : List (Nat × Blob) := []

/-- `paragraphAudioMap[idx]` lookup. -/
def lookupBlob (m : List (Nat × Blob)) (idx : Nat) : Option Blob :=
  match m with
  | [] => none
  | (k, b) :: rest => if k = idx then some b else lookupBlob rest idx

def containerXmlStr : String :=
  "<?xml version=\"1.0\" encoding=\"UTF-8\"?>\n<container version=\"1.0\" xmlns=\"urn:oasis:names:tc:opendocument:xmlns:container\">\n  <rootfiles>\n    <rootfile full-path=\"OEBPS/content.opf\" media-type=\"application/oebps-package+xml\"/>\n  </rootfiles>\n</container>"

def styleCssStr : String :=
  "\n    @font-face \x7b\n      font-family: \"Noto Serif SC\";\n      src: local(\"Noto Serif SC\"), local(\"Source Han Serif SC\");\n    \x7d\n    body \x7b \n      font-family: \"Noto Serif SC\", \"Source Han Serif SC\", serif; \n      padding: 5% 8%; \n      line-height: 1.85; \n      color: #1e293b; \n      background-color: #ffffff;\n    \x7d\n    h1.chapter-title \x7b \n      text-align: center; \n      font-size: 2.2em; \n      margin-top: 1em;\n      margin-bottom: 1.2em; \n      color: #0f172a; \n      border-bottom: 2px solid #e2e8f0;\n      padding-bottom: 0.5em;\n    \x7d\n    .chapter-audio-container \x7b \n      background-color: #f0f7ff; \n      padding: 20px; \n      border-radius: 16px; \n      margin-bottom: 40px; \n      border: 1px solid #bfdbfe; \n      text-align: center; \n      box-shadow: 0 4px 6px -1px rgba(0, 0, 0, 0.05);\n    \x7d\n    .audio-label \x7b\n      font-weight: bold; \n      margin-bottom: 12px; \n      color: #1d4ed8; \n      font-size: 0.95em;\n      text-transform: uppercase;\n      letter-spacing: 0.05em;\n    \x7d\n    .paragraph-wrapper \x7b \n      margin-bottom: 50px; \n      padding-bottom: 30px;\n      border-bottom: 1px solid #f1f5f9;\n    \x7d\n    .original-text \x7b \n      font-size: 1.2em; \n      color: #0f172a;\n      margin-bottom: 15px;\n      font-weight: 400;\n    \x7d\n    .paragraph-audio-container \x7b \n      margin-top: 10px; \n      margin-bottom: 15px; \n      text-align: left; \n    \x7d\n    .translation-container \x7b \n      font-size: 1.05em; \n      color: #475569; \n      font-style: italic; \n      background-color: #f8fafc; \n      padding: 18px; \n      border-radius: 12px; \n      margin-bottom: 20px; \n      border-left: 4px solid #cbd5e1;\n    \x7d\n    .analysis-container \x7b \n      font-size: 0.95em; \n      background-color: #fffbeb; \n      padding: 24px; \n      border: 1px solid #fef3c7; \n      border-radius: 20px; \n      margin-top: 15px; \n      color: #451a03;\n    \x7d\n    .analysis-header \x7b \n      display: flex;\n      align-items: center;\n      font-weight: bold; \n      color: #92400e; \n      margin-bottom: 15px; \n      font-size: 1.15em; \n      border-bottom: 1px solid #fde68a; \n      padding-bottom: 8px; \n    \x7d\n    .analysis-header:before \x7b\n      content: \"✦ \";\n      color: #f59e0b;\n    \x7d\n    audio \x7b \n      width: 100%; \n      height: 40px; \n    \x7d\n    .p-audio \x7b \n      width: 100%; \n      max-width: 320px; \n      height: 34px; \n    \x7d\n  "

def xhtmlHeadA : String :=
  "<?xml version=\"1.0\" encoding=\"UTF-8\"?>\n<html xmlns=\"http://www.w3.org/1999/xhtml\" xmlns:epub=\"http://www.idpf.org/2007/ops\">\n<head>\n  <title>"

def xhtmlHeadB : String :=
  "</title>\n  <link rel=\"stylesheet\" type=\"text/css\" href=\"style.css\"/>\n</head>\n<body>\n  <h1 class=\"chapter-title\">"

def xhtmlHeadC : String :=
  "</h1>"

def chapterAudioStr : String :=
  "\n    <div class=\"chapter-audio-container\">\n      <div class=\"audio-label\">章节朗读 · 全章播放</div>\n      <audio controls=\"controls\">\n        <source src=\"audio_chapter.wav\" type=\"audio/wav\" />\n        您的阅读器不支持音频播放。\n      </audio>\n    </div>"

def paraWrapA : String :=
  "\n    <div class=\"paragraph-wrapper\">\n      <div class=\"original-text\">"

def paraWrapB : String :=
  "</div>"

def paraAudioA : String :=
  "\n      <div class=\"paragraph-audio-container\">\n        <audio controls=\"controls\" class=\"p-audio\">\n          <source src=\"audio_p"

def paraAudioB : String :=
  ".wav\" type=\"audio/wav\" />\n        </audio>\n      </div>"

def transA : String :=
  "<div class=\"translation-container\">"

def transB : String :=
  "</div>"

def anaA : String :=
  "\n      <div class=\"analysis-container\">\n        <div class=\"analysis-header\">AI 语言深度解析报告</div>\n        <div class=\"analysis-content\">\n          "

def anaB : String :=
  "\n        </div>\n      </div>"

def manifestBaseStr : String :=
  "\n    <item id=\"chapter\" href=\"chapter.xhtml\" media-type=\"application/xhtml+xml\" />\n    <item id=\"style\" href=\"style.css\" media-type=\"text/css\"/>\n  "

def manifestChapterAudioStr : String :=
  "<item id=\"audio_chapter\" href=\"audio_chapter.wav\" media-type=\"audio/wav\"/>"

def manifestPAudioA : String :=
  "<item id=\"audio_p"

def manifestPAudioB : String :=
  "\" href=\"audio_p"

def manifestPAudioC : String :=
  ".wav\" media-type=\"audio/wav\"/>"

def opfA : String :=
  "<?xml version=\"1.0\" encoding=\"UTF-8\"?>\n<package xmlns=\"http://www.idpf.org/2007/opf\" unique-identifier=\"pub-id\" version=\"3.0\">\n  <metadata xmlns:dc=\"http://purl.org/dc/elements/1.1/\">\n    <dc:identifier id=\"pub-id\">urn:uuid:"

def opfB : String :=
  "</dc:identifier>\n    <dc:title>"

def opfC : String :=
  "</dc:title>\n    <dc:language>zh</dc:language>\n    <meta property=\"dcterms:modified\">"

def opfD : String :=
  "</meta>\n  </metadata>\n  <manifest>\n    "

def opfE : String :=
  "\n  </manifest>\n  <spine>\n    <itemref idref=\"chapter\"/>\n  </spine>\n</package>"

/-- The HTML appended for one paragraph at index `idx`: the original text,
then — each guarded by JavaScript truthiness, so absent keys and empty
strings render nothing, while a present audio blob is always truthy — the
per-paragraph audio block, the translation block, and the analysis block
whose body runs through `simpleMarkdownToHtml`. -/
def paraHtml (tr an : Nat → Option String) (pa : List (Nat × Blob)) (idx : Nat)
    (p : String) : String :=
  paraWrapA ++ p ++ paraWrapB
  ++ (match lookupBlob pa idx with
      | some _ => paraAudioA ++ toString idx ++ paraAudioB
      | none => "")
  ++ (match tr idx with
      | some t => if t = "" then "" else transA ++ t ++ transB
      | none => "")
  ++ (match an idx with
      | some s => if s = "" then "" else anaA ++ simpleMarkdownToHtml s ++ anaB
      | none => "")
  ++ "</div>"

/-- The `data.paragraphs.forEach((p, idx) => ...)` loop, `idx` running from
the given start index. -/
def paraBlocksHtml (tr an : Nat → Option String) (pa : List (Nat × Blob)) :
    Nat → List String → String
  | _, [] => ""
  | idx, p :: rest => paraHtml tr an pa idx p ++ paraBlocksHtml tr an pa (idx + 1) rest

/-- The chapter content document `chapterHtml`: header with the title
interpolated twice, optional chapter-audio block, one block per paragraph,
closing tags. -/
def chapterXhtml (data : ChapterExportData) : String :=
  xhtmlHeadA ++ data.title ++ xhtmlHeadB ++ data.title ++ xhtmlHeadC
  ++ (if data.audioBlob.isSome then chapterAudioStr else "")
  ++ paraBlocksHtml data.translations data.analyses data.paragraphAudioBlobs 0 data.paragraphs
  ++ "</body></html>"

/-- The audio manifest items contributed by
`Object.keys(paragraphAudioMap).forEach(...)`. -/
def audioManifestItems : List (Nat × Blob) → String
  | [] => ""
  | (idx, _) :: rest =>
    manifestPAudioA ++ toString idx ++ manifestPAudioB ++ toString idx ++ manifestPAudioC
    ++ audioManifestItems rest

/-- The accumulated `manifestItems` string. -/
def manifestItemsStr (data : ChapterExportData) : String :=
  manifestBaseStr
  ++ (if data.audioBlob.isSome then manifestChapterAudioStr else "")
  ++ audioManifestItems data.paragraphAudioBlobs

/-- The package descriptor `contentOpf`, with the random identifier and the
modification timestamp abstracted as parameters. -/
def contentOpf (uuid modified : String) (data : ChapterExportData) : String :=
  opfA ++ uuid ++ opfB ++ data.title ++ opfC ++ modified ++ opfD
  ++ manifestItemsStr data ++ opfE

/-- The per-paragraph audio archive entries written by
`Object.entries(paragraphAudioMap).forEach(...)`. -/
def audioEntries : List (Nat × Blob) → List ZipEntry
  | [] => []
  | (idx, b) :: rest =>
    { name := "OEBPS/audio_p" ++ toString idx ++ ".wav",
      content := EntryContent.bin b,
      compression := Compression.DEFLATE } :: audioEntries rest

/-- `generateEpub` of src/unnamed/part_007 lines 45–266: the resulting
archive as its ordered entry list.  The `mimetype` entry is written first
with the explicit STORE option; every later entry is compressed with the
DEFLATE method passed to `generateAsync`. -/
def generateEpub (uuid modified : String) (data : ChapterExportData) : List ZipEntry :=
  [ { name := "mimetype",
      content := EntryContent.text "application/epub+zip",
      compression := Compression.STORE },
    { name := "META-INF/container.xml",
      content := EntryContent.text containerXmlStr,
      compression := Compression.DEFLATE },
    { name := "OEBPS/style.css",
      content := EntryContent.text styleCssStr,
      compression := Compression.DEFLATE },
    { name := "OEBPS/chapter.xhtml",
      content := EntryContent.text (chapterXhtml data),
      compression := Compression.DEFLATE } ]
  ++ (match data.audioBlob with
      | some b =>
        [ { name := "OEBPS/audio_chapter.wav",
            content := EntryContent.bin b,
            compression := Compression.DEFLATE } ]
      | none => [])
  ++ audioEntries data.paragraphAudioBlobs
  ++ [ { name := "OEBPS/content.opf",
         content := EntryContent.text (contentOpf uuid modified data),
         compression := Compression.DEFLATE } ]

/-! ## General lemmas -/

/-- String concatenation is associative. -/
theorem strAppend_assoc (a b c : String) : a ++ b ++ c = a ++ (b ++ c) := by
  cases a with
  | mk la =>
  cases b with
  | mk lb =>
  cases c with
  | mk lc =>
  show String.mk (la ++ lb ++ lc) = String.mk (la ++ (lb ++ lc))
  rw [List.append_assoc]

/-- The character data of a concatenation. -/
theorem strData_append (a b : String) : (a ++ b).data = a.data ++ b.data := by
  cases a
  cases b
  rfl

/-- Prepending the empty string is the identity. -/
theorem strEmpty_append (s : String) : "" ++ s = s := by
  cases s with
  | mk l =>
  show String.mk ([] ++ l) = String.mk l
  rw [List.nil_append]

/-- `dropWhile` keeps something when some element falsifies the predicate. -/
theorem dropWhile_ne_nil_of_any {p : Char → Bool} :
    ∀ l : List Char, l.any (fun c => !p c) = true → l.dropWhile p ≠ [] := by
  intro l
  induction l with
  | nil => intro h; simp at h
  | cons c rest ih =>
    intro h
    by_cases hc : p c
    · rw [List.dropWhile_cons_of_pos hc]
      apply ih
      simp [hc] at h
      simpa using h
    · rw [List.dropWhile_cons_of_neg hc]
      simp

/-- Trimming a string whose first character is not whitespace is non-empty. -/
theorem jsTrimList_cons_ne_nil (c : Char) (l : List Char) (hc : jsWsChar c = false) :
    jsTrimList (c :: l) ≠ [] := by
  unfold jsTrimList
  rw [List.dropWhile_cons_of_neg (by simp [hc])]
  intro h
  rw [List.reverse_eq_nil_iff] at h
  refine dropWhile_ne_nil_of_any (c :: l).reverse ?_ h
  rw [List.any_reverse]
  simp [hc]

/-- The synthesized title `"Chapter " + (i+1)` never trims to the empty
string. -/
theorem chapterDefault_ne_empty (s : String) : jsTrim ("Chapter " ++ s) ≠ "" := by
  unfold jsTrim
  have hd : ("Chapter " ++ s).data = 'C' :: ("hapter " ++ s).data := by
    rw [strData_append, strData_append]
    rfl
  rw [hd]
  intro h
  exact jsTrimList_cons_ne_nil 'C' _ (by decide) (by
    have := congrArg String.data h
    simpa using this)

/-- Unfolding lemma: the parse succeeds once the container descriptor, the
rootfile pointer and the package descriptor resolve, and its result is the
spine loop. -/
theorem parse_ok (z : Archive) (cdoc : Doc) (p : String) (odoc : Doc)
    (h1 : lookupFile z "META-INF/container.xml" = some cdoc)
    (h2 : cdoc.rootfilePath = some p)
    (h3 : lookupFile z p = some odoc) :
    parseEpubFile z =
      Except.ok (spineChapters z odoc.manifestItems (dirOf p) 0 odoc.spineIdrefs) := by
  unfold parseEpubFile
  rw [h1]
  dsimp only
  rw [h2]
  dsimp only
  rw [h3]

/-- A retained chapter's id is its 1-based spine position. -/
theorem processSpineItem_id (z : Archive) (m : List (Option String × Option String))
    (r : String) (i : Nat) (id : String) (c : Chapter)
    (h : processSpineItem z m r i id = some c) : c.id = toString (i + 1) := by
  unfold processSpineItem at h
  split at h
  · exact absurd h (by simp)
  · split at h
    · exact absurd h (by simp)
    · dsimp only at h
      split at h
      · injection h with h
        subst h
        rfl
      · exact absurd h (by simp)

/-- The ids of the chapters the spine loop retains are exactly the 1-based
spine positions of the retained entries, rendered as decimal strings. -/
theorem spineChapters_ids (z : Archive) (m : List (Option String × Option String))
    (r : String) :
    ∀ (l : List String) (i : Nat),
      (spineChapters z m r i l).map Chapter.id
        = (retainedPositions z m r i l).map (fun j => toString (j + 1)) := by
  intro l
  induction l with
  | nil => intro i; rfl
  | cons id rest ih =>
    intro i
    unfold spineChapters retainedPositions
    cases hp : processSpineItem z m r i id with
    | none => simp only [hp, Option.isSome_none, Bool.false_eq_true, if_false]; exact ih (i + 1)
    | some c =>
      simp only [hp, Option.isSome_some, if_true, List.map_cons]
      rw [processSpineItem_id z m r i id c hp, ih (i + 1)]

/-- First truthy value of the JavaScript chain `a || b`, when either is. -/
def jsTruthy (b : Option String) : Option String :=
  match b with
  | some t => if t = "" then none else some t
  | none => none

/-- First truthy value of the chain `a || b || dflt` before the default. -/
def jsFirstTruthy (a b : Option String) : Option String :=
  match a with
  | some s => if s = "" then jsTruthy b else some s
  | none => jsTruthy b

/-- The title chain evaluates to the first truthy candidate, else to the
default. -/
theorem jsOr_eq_firstTruthy (a b : Option String) (dflt : String) :
    jsOr a (jsOr b dflt) =
      match jsFirstTruthy a b with
      | some s => s
      | none => dflt := by
  cases a with
  | none =>
    cases b with
    | none => rfl
    | some t =>
      by_cases ht : t = "" <;> simp [jsOr, jsFirstTruthy, jsTruthy, ht]
  | some s =>
    by_cases hs : s = ""
    · cases b with
      | none => simp [jsOr, jsFirstTruthy, jsTruthy, hs]
      | some t =>
        by_cases ht : t = "" <;> simp [jsOr, jsFirstTruthy, jsTruthy, hs, ht]
    · simp [jsOr, jsFirstTruthy, jsTruthy, hs]

/-! ## Concrete reader fixtures -/

/-- Container descriptor view pointing at a root-level `content.opf`. -/
def flatContainerView : Doc := { rootfilePath := some "content.opf" }

/-- Package descriptor with two chapters, the first of which is too short
to survive the length filter. -/
def denseOpfView : Doc :=
  { manifestItems := [(some "c1", some "ch1.xhtml"), (some "c2", some "ch2.xhtml")],
    spineIdrefs := ["c1", "c2"] }

/-- A stub chapter document whose extracted content `"tiny"` has at most
10 characters. -/
def shortChapterDoc : Doc :=
  { titleText := some "Short", blocks := [{ tag := BTag.p, text := "tiny" }] }

/-- A chapter document whose extracted content clearly exceeds 10
characters. -/
def longChapterDoc : Doc :=
  { titleText := some "Long", blocks := [{ tag := BTag.p, text := "this paragraph is long enough" }] }

/-- Archive where the first spine entry is dropped by the length filter
and the second is retained. -/
def denseIdsArch : Archive :=
  [ ("META-INF/container.xml", flatContainerView),
    ("content.opf", denseOpfView),
    ("ch1.xhtml", shortChapterDoc),
    ("ch2.xhtml", longChapterDoc) ]

/-- Package descriptor whose reading order references `miss`, an id absent
from the manifest, between two valid chapters. -/
def skipOpfView : Doc :=
  { manifestItems := [(some "a", some "chA.xhtml"), (some "b", some "chB.xhtml")],
    spineIdrefs := ["a", "miss", "b"] }

/-- First valid chapter document of the skip fixture. -/
def skipDocA : Doc :=
  { titleText := some "Alpha", blocks := [{ tag := BTag.p, text := "first chapter body with enough text" }] }

/-- Second valid chapter document of the skip fixture. -/
def skipDocB : Doc :=
  { titleText := some "Beta", blocks := [{ tag := BTag.p, text := "second chapter body with enough text" }] }

/-- Archive whose reading order references one missing resource and two
valid chapter documents. -/
def skipArch : Archive :=
  [ ("META-INF/container.xml", flatContainerView),
    ("content.opf", skipOpfView),
    ("chA.xhtml", skipDocA),
    ("chB.xhtml", skipDocB) ]

/-- A chapter document whose `<title>` element text is a single space:
truthy in JavaScript, but empty after trimming. -/
def wsTitleChapterDoc : Doc :=
  { titleText := some " ",
    blocks := [{ tag := BTag.p, text := "some sufficiently long paragraph" }] }

/-- Archive exposing the whitespace-only title. -/
def wsTitleArch : Archive :=
  [ ("META-INF/container.xml", flatContainerView),
    ("content.opf", { manifestItems := [(some "c", some "ch.xhtml")], spineIdrefs := ["c"] }),
    ("ch.xhtml", wsTitleChapterDoc) ]

/-- Single-document fixture for the length filter. -/
def filterDoc : Doc := { blocks := [{ tag := BTag.p, text := "enough text to pass the filter" }] }

/-- Archive holding only the filter fixture document. -/
def filterArch : Archive := [("d.xhtml", filterDoc)]

/-! ## Claims -/

/-- C6.  `parseEpubFile` fails with a `FormatError` exactly when the
archive has no `META-INF/container.xml` entry, or the container descriptor
has no rootfile full-path, or the package descriptor at that path is not
readable; in every other case it returns a chapter list and raises no
error. -/
theorem parse_format_error_iff (z : Archive) :
    (∃ e, parseEpubFile z = Except.error e) ↔
      (lookupFile z "META-INF/container.xml" = none
       ∨ (∃ c, lookupFile z "META-INF/container.xml" = some c ∧ c.rootfilePath = none)
       ∨ (∃ c p, lookupFile z "META-INF/container.xml" = some c ∧ c.rootfilePath = some p
            ∧ lookupFile z p = none)) := by
  cases h1 : lookupFile z "META-INF/container.xml" with
  | none =>
    constructor
    · intro _
      exact Or.inl rfl
    · intro _
      refine ⟨"无效的 EPUB 文件：缺少 container.xml", ?_⟩
      unfold parseEpubFile
      rw [h1]
  | some c =>
    cases h2 : c.rootfilePath with
    | none =>
      constructor
      · intro _
        exact Or.inr (Or.inl ⟨c, rfl, h2⟩)
      · intro _
        refine ⟨"无效的 EPUB 文件：无法找到 rootfile 路径", ?_⟩
        unfold parseEpubFile
        rw [h1]
        dsimp only
        rw [h2]
    | some p =>
      cases h3 : lookupFile z p with
      | none =>
        constructor
        · intro _
          exact Or.inr (Or.inr ⟨c, p, rfl, h2, h3⟩)
        · intro _
          refine ⟨"无效的 EPUB 文件：无法读取 OPF 文件", ?_⟩
          unfold parseEpubFile
          rw [h1]
          dsimp only
          rw [h2]
          dsimp only
          rw [h3]
      | some o =>
        constructor
        · intro he
          obtain ⟨e, he⟩ := he
          rw [parse_ok z c p o h1 h2 h3] at he
          exact absurd he (by simp)
        · intro hd
          rcases hd with hd | ⟨c2, hc2, hr2⟩ | ⟨c2, p2, hc2, hr2, ho2⟩
          · exact absurd hd (by simp)
          · injection hc2 with hc2
            subst hc2
            rw [h2] at hr2
            exact absurd hr2 (by simp)
          · injection hc2 with hc2
            subst hc2
            rw [h2] at hr2
            injection hr2 with hr2
            subst hr2
            rw [h3] at ho2
            exact absurd ho2 (by simp)

/-- C7.  Once the container, rootfile pointer and package descriptor
resolve, the parse returns the spine loop's chapters and never raises; a
reading-order id with no manifest entry, or whose resolved path is absent
from the archive, yields no chapter, and the loop on such an entry reduces
to the loop on the remaining entries — the entry is skipped silently. -/
theorem reading_order_skip (z : Archive) (cdoc : Doc) (p : String) (odoc : Doc)
    (h1 : lookupFile z "META-INF/container.xml" = some cdoc)
    (h2 : cdoc.rootfilePath = some p)
    (h3 : lookupFile z p = some odoc) :
    parseEpubFile z
      = Except.ok (spineChapters z odoc.manifestItems (dirOf p) 0 odoc.spineIdrefs)
    ∧ (∀ i id, manifestLookup odoc.manifestItems id = none →
        processSpineItem z odoc.manifestItems (dirOf p) i id = none)
    ∧ (∀ i id rp, manifestLookup odoc.manifestItems id = some rp →
        lookupFile z (dirOf p ++ rp) = none →
        processSpineItem z odoc.manifestItems (dirOf p) i id = none)
    ∧ (∀ i id rest, processSpineItem z odoc.manifestItems (dirOf p) i id = none →
        spineChapters z odoc.manifestItems (dirOf p) i (id :: rest)
          = spineChapters z odoc.manifestItems (dirOf p) (i + 1) rest) := by
  refine ⟨parse_ok z cdoc p odoc h1 h2 h3, ?_, ?_, ?_⟩
  · intro i id hm
    unfold processSpineItem
    rw [hm]
  · intro i id rp hm hf
    unfold processSpineItem
    rw [hm]
    dsimp only
    rw [hf]
  · intro i id rest hnone
    conv_lhs => rw [spineChapters]
    rw [hnone]

/-- C7 witness: the concrete archive whose reading order is a valid
chapter, a missing id, and another valid chapter parses to exactly the two
valid chapters without error. -/
theorem reading_order_skip_witness :
    parseEpubFile skipArch = Except.ok
      [ { id := "1", title := "Alpha", content := "first chapter body with enough text" },
        { id := "3", title := "Beta", content := "second chapter body with enough text" } ] := by
  have h := reading_order_skip skipArch flatContainerView "content.opf" skipOpfView rfl rfl rfl
  exact h.1.trans rfl

/-- C8.  A chapter document that the spine loop reaches (its manifest entry
and archive entry both resolve) produces a chapter exactly when its final
trimmed extracted content is strictly longer than 10 characters. -/
theorem content_length_filter (z : Archive) (m : List (Option String × Option String))
    (r : String) (i : Nat) (id rp : String) (d : Doc)
    (hm : manifestLookup m id = some rp)
    (hf : lookupFile z (r ++ rp) = some d) :
    (processSpineItem z m r i id).isSome = true
      ↔ 10 < (jsTrim (extractContent d)).length := by
  unfold processSpineItem
  rw [hm]
  dsimp only
  rw [hf]
  dsimp only
  by_cases h10 : 10 < (jsTrim (extractContent d)).length
  · rw [if_pos h10]
    simp [h10]
  · rw [if_neg h10]
    simp [h10]

/-- C8 witness: a document with more than 10 characters of content is
retained. -/
theorem content_length_filter_witness :
    (processSpineItem filterArch [(some "x", some "d.xhtml")] "" 0 "x").isSome = true :=
  (content_length_filter filterArch [(some "x", some "d.xhtml")] "" 0 "x" "d.xhtml"
    filterDoc rfl rfl).mpr (by decide)

/-- C2 (amended).  In a successful parse the retained chapters carry ids
equal to their 1-based position in the reading order (as decimal strings):
dropped chapters leave gaps, so the ids are not reassigned densely. -/
theorem ids_follow_spine_positions (z : Archive) (cdoc : Doc) (p : String) (odoc : Doc)
    (h1 : lookupFile z "META-INF/container.xml" = some cdoc)
    (h2 : cdoc.rootfilePath = some p)
    (h3 : lookupFile z p = some odoc) :
    parseEpubFile z
      = Except.ok (spineChapters z odoc.manifestItems (dirOf p) 0 odoc.spineIdrefs)
    ∧ ∀ (l : List String) (i : Nat),
        (spineChapters z odoc.manifestItems (dirOf p) i l).map Chapter.id
          = (retainedPositions z odoc.manifestItems (dirOf p) i l).map
              (fun j => toString (j + 1)) :=
  ⟨parse_ok z cdoc p odoc h1 h2 h3,
   fun l i => spineChapters_ids z odoc.manifestItems (dirOf p) l i⟩

/-- C2 witness: the id equation instantiated on the concrete two-chapter
archive whose first chapter is dropped. -/
theorem ids_follow_spine_positions_witness :
    parseEpubFile denseIdsArch
      = Except.ok (spineChapters denseIdsArch denseOpfView.manifestItems (dirOf "content.opf")
          0 denseOpfView.spineIdrefs)
    ∧ (spineChapters denseIdsArch denseOpfView.manifestItems (dirOf "content.opf")
          0 ["c1", "c2"]).map Chapter.id
        = (retainedPositions denseIdsArch denseOpfView.manifestItems (dirOf "content.opf")
            0 ["c1", "c2"]).map (fun j => toString (j + 1)) := by
  have h := ids_follow_spine_positions denseIdsArch flatContainerView "content.opf"
    denseOpfView rfl rfl rfl
  exact ⟨h.1, h.2 ["c1", "c2"] 0⟩

/-- C2 counterexample: with the first spine chapter dropped by the length
filter, the single retained chapter has id "2" — its spine position — not
the dense id "1" the claim requires. -/
theorem ids_not_dense_counterexample :
    Except.map (fun cs => cs.map Chapter.id) (parseEpubFile denseIdsArch) = Except.ok ["2"]
    ∧ Except.map (fun cs => cs.map Chapter.id) (parseEpubFile denseIdsArch)
        ≠ Except.ok ["1"] := by
  constructor
  · rfl
  · intro h
    rw [show Except.map (fun cs => cs.map Chapter.id) (parseEpubFile denseIdsArch)
          = Except.ok ["2"] from rfl] at h
    injection h with h
    injection h with h1 h2
    exact absurd h1 (by decide)

/-- C9 (amended).  A chapter produced by the spine loop has a non-empty
title whenever the first truthy candidate among the document's `<title>`
text and first-heading text — if any — does not trim to the empty string;
when both candidates are falsy the synthesized `"Chapter n"` title is
always non-empty. -/
theorem title_nonempty_unless_whitespace (z : Archive)
    (m : List (Option String × Option String)) (r : String) (i : Nat)
    (id rp : String) (d : Doc) (c : Chapter)
    (hm : manifestLookup m id = some rp)
    (hf : lookupFile z (r ++ rp) = some d)
    (hc : processSpineItem z m r i id = some c)
    (hw : ∀ s, jsFirstTruthy d.titleText d.headingText = some s → jsTrim s ≠ "") :
    c.title ≠ "" := by
  unfold processSpineItem at hc
  rw [hm] at hc
  dsimp only at hc
  rw [hf] at hc
  dsimp only at hc
  split at hc
  · injection hc with hc
    subst hc
    show jsTrim (jsOr d.titleText (jsOr d.headingText ("Chapter " ++ toString (i + 1)))) ≠ ""
    rw [jsOr_eq_firstTruthy]
    cases ht : jsFirstTruthy d.titleText d.headingText with
    | none => exact chapterDefault_ne_empty (toString (i + 1))
    | some s => exact hw s ht
  · exact absurd hc (by simp)

/-- C9 witness: a document whose `<title>` text is the non-blank string
"Hi" yields a chapter with the non-empty title "Hi". -/
theorem title_nonempty_unless_whitespace_witness :
    ({ id := "1", title := "Hi", content := "long enough chapter body" } : Chapter).title ≠ "" :=
  title_nonempty_unless_whitespace
    [("t.xhtml", { titleText := some "Hi", blocks := [{ tag := BTag.p, text := "long enough chapter body" }] })]
    [(some "x", some "t.xhtml")] "" 0 "x" "t.xhtml"
    { titleText := some "Hi", blocks := [{ tag := BTag.p, text := "long enough chapter body" }] }
    { id := "1", title := "Hi", content := "long enough chapter body" }
    rfl rfl rfl
    (by
      intro s hs
      injection hs with hs
      subst hs
      decide)

/-- C9 counterexample: a chapter document whose `<title>` element holds a
single space (truthy, so neither fallback fires) parses to a chapter whose
title is the empty string. -/
theorem whitespace_title_counterexample :
    Except.map (fun cs => cs.map Chapter.title) (parseEpubFile wsTitleArch)
      = Except.ok [""] := rfl

/-! ## Round-trip fixtures (C1)

The request of the round-trip property and the `DOMParser` views of the
five entries of the package `generateEpub` produces for it.  Each view is
obtained by applying the queries listed at `Doc` to the corresponding
generated string (see `containerXmlStr`, `contentOpf`, `chapterXhtml`);
`generateEpub_rt_names` ties the entry names of the generated package to
this archive. -/

/-- The round-trip export request of the claim. -/
def rtReq : ChapterExportData :=
  { title := "T", paragraphs := ["a", "b"],
    translations := fun _ => none, analyses := fun _ => none }

/-- View of entries the parser never opens as documents (`mimetype`,
`OEBPS/style.css`): no query of the parser is ever evaluated on them. -/
def rtPlainView : Doc := {}

/-- View of the generated `META-INF/container.xml`: its single `rootfile`
element carries `full-path="OEBPS/content.opf"`. -/
def rtContainerView : Doc := { rootfilePath := some "OEBPS/content.opf" }

/-- View of the generated `OEBPS/content.opf` for `rtReq` (no audio): two
manifest items, `chapter` → `chapter.xhtml` and `style` → `style.css`, and
the single spine idref `chapter`. -/
def rtOpfView : Doc :=
  { manifestItems := [(some "chapter", some "chapter.xhtml"), (some "style", some "style.css")],
    spineIdrefs := ["chapter"] }

/-- HTML5 view of the generated `OEBPS/chapter.xhtml` for `rtReq`: head
title text `"T"`; the only heading is the `h1` with text `"T"`; the block
query returns, in document order, the `h1` and, per paragraph, the
`paragraph-wrapper` div (whose `textContent` includes the indentation
before its child) and the inner `original-text` div; `body.textContent`
concatenates every text node, i.e. the inter-tag whitespace of the
template and the texts `"T"`, `"a"`, `"b"`. -/
def rtChapterView : Doc :=
  { titleText := some "T",
    headingText := some "T",
    blocks := [ { tag := BTag.h1, text := "T" },
                { tag := BTag.div, text := "\n      a" },
                { tag := BTag.div, text := "a" },
                { tag := BTag.div, text := "\n      b" },
                { tag := BTag.div, text := "b" } ],
    bodyText := "\n  T\n    \n      a\n    \n      b" }

/-- The parsed view of the package generated for `rtReq`. -/
def rtArchive : Archive :=
  [ ("mimetype", rtPlainView),
    ("META-INF/container.xml", rtContainerView),
    ("OEBPS/style.css", rtPlainView),
    ("OEBPS/chapter.xhtml", rtChapterView),
    ("OEBPS/content.opf", rtOpfView) ]

/-- C1 (amended).  Parsing the package generated for the round-trip
request yields no chapters at all: the paragraphs are emitted as `div`
elements, which content extraction ignores, so the only extracted line is
the `h1` title text `"T"`, and the 10-character filter drops the chapter.
The entry names of the generated package coincide with `rtArchive`. -/
theorem roundtrip_drops_chapter :
    parseEpubFile rtArchive = Except.ok []
    ∧ extractContent rtChapterView = "T"
    ∧ (generateEpub "u" "m" rtReq).map ZipEntry.name = rtArchive.map Prod.fst :=
  ⟨rfl, rfl, rfl⟩

/-- C1 counterexample: the round trip does not produce one chapter — it
produces zero. -/
theorem roundtrip_counterexample :
    Except.map List.length (parseEpubFile rtArchive) = Except.ok 0
    ∧ Except.map List.length (parseEpubFile rtArchive) ≠ Except.ok 1 := by
  constructor
  · rfl
  · intro h
    rw [show Except.map List.length (parseEpubFile rtArchive) = Except.ok 0 from rfl] at h
    injection h with h
    exact absurd h (by decide)

/-- Every per-paragraph audio entry is DEFLATE-compressed. -/
theorem audioEntries_deflate :
    ∀ l : List (Nat × Blob),
      (audioEntries l).all (fun e => e.compression == Compression.DEFLATE) = true := by
  intro l
  induction l with
  | nil => rfl
  | cons e rest ih =>
    obtain ⟨idx, b⟩ := e
    simp only [audioEntries, List.all_cons, ih, Bool.and_true]
    rfl

/-- C3.  For every export request the generated archive's first entry is
named `mimetype`, holds exactly the text `application/epub+zip`, and is
STORE-compressed; every other entry is DEFLATE-compressed. -/
theorem mimetype_first_store (uuid modified : String) (data : ChapterExportData) :
    (generateEpub uuid modified data).head?
      = some { name := "mimetype", content := EntryContent.text "application/epub+zip",
               compression := Compression.STORE }
    ∧ ((generateEpub uuid modified data).tail.all
        (fun e => e.compression == Compression.DEFLATE)) = true := by
  constructor
  · rfl
  · unfold generateEpub
    cases hab : data.audioBlob with
    | none =>
      simp [List.all_append, audioEntries_deflate]
      rfl
    | some b =>
      simp [List.all_append, audioEntries_deflate]
      rfl

/-! ## Sparse-map restriction (C5) -/

/-- The lookup map restricted to indices below `len`. -/
def restrictMap (len : Nat) (f : Nat → Option String) : Nat → Option String :=
  fun i => if i < len then f i else none

/-- The audio entry list restricted to keys below `len`. -/
def restrictBlobs (len : Nat) (l : List (Nat × Blob)) : List (Nat × Blob) :=
  l.filter (fun e => e.1 < len)

/-- The request with out-of-range translation and analysis keys removed. -/
def restrictTextMaps (d : ChapterExportData) : ChapterExportData :=
  { d with
    translations := restrictMap d.paragraphs.length d.translations,
    analyses := restrictMap d.paragraphs.length d.analyses }

/-- The request with every out-of-range sparse-map key removed. -/
def restrictAll (d : ChapterExportData) : ChapterExportData :=
  { d with
    translations := restrictMap d.paragraphs.length d.translations,
    analyses := restrictMap d.paragraphs.length d.analyses,
    paragraphAudioBlobs := restrictBlobs d.paragraphs.length d.paragraphAudioBlobs }

/-- In-range lookups do not see the restriction. -/
theorem lookupBlob_restrict (len : Nat) (l : List (Nat × Blob)) (i : Nat) (hi : i < len) :
    lookupBlob (restrictBlobs len l) i = lookupBlob l i := by
  induction l with
  | nil => rfl
  | cons e rest ih =>
    obtain ⟨k, b⟩ := e
    by_cases hk : k = i
    · subst hk
      have hstep : restrictBlobs len ((k, b) :: rest) = (k, b) :: restrictBlobs len rest := by
        simp [restrictBlobs, List.filter_cons, hi]
      rw [hstep]
      simp [lookupBlob]
    · by_cases hkl : k < len
      · have hstep : restrictBlobs len ((k, b) :: rest) = (k, b) :: restrictBlobs len rest := by
          simp [restrictBlobs, List.filter_cons, hkl]
        rw [hstep]
        simp [lookupBlob, hk, ih]
      · have hstep : restrictBlobs len ((k, b) :: rest) = restrictBlobs len rest := by
          simp [restrictBlobs, List.filter_cons, hkl]
        rw [hstep]
        simp [lookupBlob, hk, ih]

/-- The paragraph loop only consults the sparse maps at the indices it
visits. -/
theorem paraBlocksHtml_congr (tr an tr2 an2 : Nat → Option String)
    (pa pa2 : List (Nat × Blob)) :
    ∀ (l : List String) (k : Nat),
      (∀ i, k ≤ i → i < k + l.length →
        tr2 i = tr i ∧ an2 i = an i ∧ lookupBlob pa2 i = lookupBlob pa i) →
      paraBlocksHtml tr2 an2 pa2 k l = paraBlocksHtml tr an pa k l := by
  intro l
  induction l with
  | nil => intro k _; rfl
  | cons p rest ih =>
    intro k hag
    have h0 := hag k (Nat.le_refl k) (by simp)
    unfold paraBlocksHtml
    rw [ih (k + 1) (fun i h1 h2 => hag i (by omega) (by simp at h2 ⊢; omega))]
    unfold paraHtml
    rw [h0.1, h0.2.1, h0.2.2]

/-- C5 (amended).  `generateEpub` validates nothing; out-of-range
`translations` and `analyses` keys are completely unused (the whole
generated package is unchanged when they are removed), and out-of-range
`paragraphAudio` keys are never referenced by the content document (the
content document is unchanged when every out-of-range key is removed) —
though such keys do still add manifest items and archive entries, see the
counterexample. -/
theorem outofrange_keys_content_invariance (uuid modified : String)
    (d : ChapterExportData) :
    chapterXhtml (restrictAll d) = chapterXhtml d
    ∧ generateEpub uuid modified (restrictTextMaps d) = generateEpub uuid modified d := by
  have hx : ∀ (pa2 : List (Nat × Blob)),
      (∀ i, i < d.paragraphs.length → lookupBlob pa2 i = lookupBlob d.paragraphAudioBlobs i) →
      paraBlocksHtml (restrictMap d.paragraphs.length d.translations)
          (restrictMap d.paragraphs.length d.analyses) pa2 0 d.paragraphs
        = paraBlocksHtml d.translations d.analyses d.paragraphAudioBlobs 0 d.paragraphs := by
    intro pa2 hpa
    apply paraBlocksHtml_congr
    intro i h1 h2
    simp only [Nat.zero_add] at h2
    exact ⟨by simp [restrictMap, h2], by simp [restrictMap, h2], hpa i h2⟩
  have hchap : chapterXhtml (restrictTextMaps d) = chapterXhtml d := by
    show xhtmlHeadA ++ d.title ++ xhtmlHeadB ++ d.title ++ xhtmlHeadC
        ++ (if d.audioBlob.isSome then chapterAudioStr else "")
        ++ paraBlocksHtml (restrictMap d.paragraphs.length d.translations)
            (restrictMap d.paragraphs.length d.analyses) d.paragraphAudioBlobs 0 d.paragraphs
        ++ "</body></html>"
      = chapterXhtml d
    rw [hx d.paragraphAudioBlobs (fun i _ => rfl)]
    exact rfl
  constructor
  · show xhtmlHeadA ++ d.title ++ xhtmlHeadB ++ d.title ++ xhtmlHeadC
        ++ (if d.audioBlob.isSome then chapterAudioStr else "")
        ++ paraBlocksHtml (restrictMap d.paragraphs.length d.translations)
            (restrictMap d.paragraphs.length d.analyses)
            (restrictBlobs d.paragraphs.length d.paragraphAudioBlobs) 0 d.paragraphs
        ++ "</body></html>"
      = chapterXhtml d
    rw [hx (restrictBlobs d.paragraphs.length d.paragraphAudioBlobs)
      (fun i hi => lookupBlob_restrict d.paragraphs.length d.paragraphAudioBlobs i hi)]
    exact rfl
  · unfold generateEpub
    rw [hchap]
    exact rfl

/-- Request with one paragraph and one out-of-range audio key. -/
def oorReq : ChapterExportData :=
  { title := "t", paragraphs := ["a"],
    translations := fun _ => none, analyses := fun _ => none,
    paragraphAudioBlobs := [(5, 0)] }

/-- The same request with the out-of-range key removed. -/
def oorReqClean : ChapterExportData :=
  { title := "t", paragraphs := ["a"],
    translations := fun _ => none, analyses := fun _ => none,
    paragraphAudioBlobs := [] }

/-- C5 counterexample: the out-of-range audio key 5 leaves the content
document untouched but adds the archive entry `OEBPS/audio_p5.wav` and a
manifest item for it, so the generated package is not the same as for the
request without the key. -/
theorem outofrange_audio_counterexample :
    (generateEpub "u" "m" oorReq).map ZipEntry.name
      = ["mimetype", "META-INF/container.xml", "OEBPS/style.css", "OEBPS/chapter.xhtml",
         "OEBPS/audio_p5.wav", "OEBPS/content.opf"]
    ∧ (generateEpub "u" "m" oorReqClean).map ZipEntry.name
      = ["mimetype", "META-INF/container.xml", "OEBPS/style.css", "OEBPS/chapter.xhtml",
         "OEBPS/content.opf"]
    ∧ subOccurs "audio_p5" (contentOpf "u" "m" oorReq) = true
    ∧ subOccurs "audio_p5" (contentOpf "u" "m" oorReqClean) = false
    ∧ chapterXhtml oorReq = chapterXhtml oorReqClean :=
  ⟨rfl, rfl, rfl, rfl, rfl⟩

/-- One paragraph block starts with the fixed `original-text` template
followed by the paragraph string verbatim. -/
theorem paraHtml_decomp (tr an : Nat → Option String) (pa : List (Nat × Blob))
    (k : Nat) (p : String) :
    ∃ r2, paraHtml tr an pa k p = paraWrapA ++ (p ++ r2) :=
  ⟨_, by
    unfold paraHtml
    simp only [strAppend_assoc]
    rfl⟩

/-- Every paragraph string of the request appears verbatim in the
paragraph loop's output, immediately after the fixed `original-text`
template text. -/
theorem paraBlocksHtml_contains (tr an : Nat → Option String) (pa : List (Nat × Blob)) :
    ∀ (l : List String) (k : Nat) (p : String), p ∈ l →
      ∃ r1 r2, paraBlocksHtml tr an pa k l = r1 ++ (paraWrapA ++ (p ++ r2)) := by
  intro l
  induction l with
  | nil => intro k p hp; exact absurd hp (by simp)
  | cons q rest ih =>
    intro k p hp
    rcases List.mem_cons.mp hp with rfl | hmem
    · obtain ⟨r2, h2⟩ := paraHtml_decomp tr an pa k p
      refine ⟨"", r2 ++ paraBlocksHtml tr an pa (k + 1) rest, ?_⟩
      rw [strEmpty_append]
      show paraHtml tr an pa k p ++ paraBlocksHtml tr an pa (k + 1) rest = _
      rw [h2]
      simp only [strAppend_assoc]
    · obtain ⟨r1, r2, h⟩ := ih (k + 1) p hmem
      refine ⟨paraHtml tr an pa k q ++ r1, r2, ?_⟩
      show paraHtml tr an pa k q ++ paraBlocksHtml tr an pa (k + 1) rest = _
      rw [h]
      simp only [strAppend_assoc]

/-- A truthy translation at a visited index appears verbatim in the
paragraph loop's output, immediately after the fixed
`translation-container` template text. -/
theorem paraBlocksHtml_contains_translation (tr an : Nat → Option String)
    (pa : List (Nat × Blob)) :
    ∀ (l : List String) (k idx : Nat) (t : String),
      k ≤ idx → idx < k + l.length → tr idx = some t → t ≠ "" →
      ∃ r1 r2, paraBlocksHtml tr an pa k l = r1 ++ (transA ++ (t ++ r2)) := by
  intro l
  induction l with
  | nil =>
    intro k idx t hk hlt _ _
    simp at hlt
    omega
  | cons q rest ih =>
    intro k idx t hk hlt ht htne
    by_cases hik : idx = k
    · subst hik
      show ∃ r1 r2, paraHtml tr an pa idx q ++ paraBlocksHtml tr an pa (idx + 1) rest
          = r1 ++ (transA ++ (t ++ r2))
      unfold paraHtml
      rw [ht]
      dsimp only
      rw [if_neg htne]
      cases hm : lookupBlob pa idx with
      | none =>
        dsimp only
        cases ha : an idx with
        | none =>
          refine ⟨paraWrapA ++ q ++ paraWrapB ++ "",
            transB ++ ("" ++ ("</div>" ++ paraBlocksHtml tr an pa (idx + 1) rest)), ?_⟩
          simp only [strAppend_assoc]
        | some s =>
          dsimp only
          by_cases hs : s = ""
          · rw [if_pos hs]
            refine ⟨paraWrapA ++ q ++ paraWrapB ++ "",
              transB ++ ("" ++ ("</div>" ++ paraBlocksHtml tr an pa (idx + 1) rest)), ?_⟩
            simp only [strAppend_assoc]
          · rw [if_neg hs]
            refine ⟨paraWrapA ++ q ++ paraWrapB ++ "",
              transB ++ ((anaA ++ simpleMarkdownToHtml s ++ anaB)
                ++ ("</div>" ++ paraBlocksHtml tr an pa (idx + 1) rest)), ?_⟩
            simp only [strAppend_assoc]
      | some b =>
        dsimp only
        cases ha : an idx with
        | none =>
          refine ⟨paraWrapA ++ q ++ paraWrapB ++ (paraAudioA ++ toString idx ++ paraAudioB),
            transB ++ ("" ++ ("</div>" ++ paraBlocksHtml tr an pa (idx + 1) rest)), ?_⟩
          simp only [strAppend_assoc]
        | some s =>
          dsimp only
          by_cases hs : s = ""
          · rw [if_pos hs]
            refine ⟨paraWrapA ++ q ++ paraWrapB ++ (paraAudioA ++ toString idx ++ paraAudioB),
              transB ++ ("" ++ ("</div>" ++ paraBlocksHtml tr an pa (idx + 1) rest)), ?_⟩
            simp only [strAppend_assoc]
          · rw [if_neg hs]
            refine ⟨paraWrapA ++ q ++ paraWrapB ++ (paraAudioA ++ toString idx ++ paraAudioB),
              transB ++ ((anaA ++ simpleMarkdownToHtml s ++ anaB)
                ++ ("</div>" ++ paraBlocksHtml tr an pa (idx + 1) rest)), ?_⟩
            simp only [strAppend_assoc]
    · obtain ⟨r1, r2, h⟩ := ih (k + 1) idx t (by omega) (by simp at hlt ⊢; omega) ht htne
      refine ⟨paraHtml tr an pa k q ++ r1, r2, ?_⟩
      show paraHtml tr an pa k q ++ paraBlocksHtml tr an pa (k + 1) rest = _
      rw [h]
      simp only [strAppend_assoc]

/-- Export request whose title contains markup-significant characters. -/
def badTitleReq : ChapterExportData :=
  { title := "X & </h1> <script>", paragraphs := [],
    translations := fun _ => none, analyses := fun _ => none }

/-- Export request whose single paragraph and its translation contain
markup-significant characters. -/
def badParaReq : ChapterExportData :=
  { title := "T",
    paragraphs := ["P & <br> </div>"],
    translations := fun i => if i = 0 then some "t & </div> <b>" else none,
    analyses := fun _ => none }

/-- C10.  The writer interpolates the request's title, paragraph and
translation strings verbatim, with no XML/HTML escaping: the title appears
character-for-character in the chapter document (twice, in the head title
and in the `h1`) and in the package descriptor; every paragraph string and
every truthy translation of a visited index appears character-for-character
in the chapter document, immediately after fixed template text; and for the
concrete requests whose title, paragraph and translation contain `&`,
`</h1>`, `</div>`, `<script>`, `<br>` and `<b>`, those characters occur
unescaped in the generated documents. -/
theorem title_interpolated_verbatim (uuid modified : String) (data : ChapterExportData) :
    (∃ r, chapterXhtml data
        = xhtmlHeadA ++ (data.title ++ (xhtmlHeadB ++ (data.title ++ r))))
    ∧ (∃ r1 r2, contentOpf uuid modified data = r1 ++ (data.title ++ r2))
    ∧ (∀ p ∈ data.paragraphs,
        ∃ r1 r2, chapterXhtml data = r1 ++ (paraWrapA ++ (p ++ r2)))
    ∧ (∀ idx t, idx < data.paragraphs.length → data.translations idx = some t → t ≠ "" →
        ∃ r1 r2, chapterXhtml data = r1 ++ (transA ++ (t ++ r2)))
    ∧ subOccurs "X & </h1> <script>" (chapterXhtml badTitleReq) = true
    ∧ subOccurs "X & </h1> <script>" (contentOpf "u" "m" badTitleReq) = true
    ∧ subOccurs "P & <br> </div>" (chapterXhtml badParaReq) = true
    ∧ subOccurs "t & </div> <b>" (chapterXhtml badParaReq) = true := by
  refine ⟨⟨xhtmlHeadC ++ ((if data.audioBlob.isSome then chapterAudioStr else "")
      ++ (paraBlocksHtml data.translations data.analyses data.paragraphAudioBlobs 0
            data.paragraphs
      ++ "</body></html>")), ?_⟩,
    ⟨opfA ++ (uuid ++ opfB),
     opfC ++ (modified ++ (opfD ++ (manifestItemsStr data ++ opfE))), ?_⟩,
    ?_, ?_, rfl, rfl, rfl, rfl⟩
  · unfold chapterXhtml
    simp only [strAppend_assoc]
  · unfold contentOpf
    simp only [strAppend_assoc]
  · intro p hp
    obtain ⟨r1, r2, h⟩ := paraBlocksHtml_contains data.translations data.analyses
      data.paragraphAudioBlobs data.paragraphs 0 p hp
    refine ⟨(xhtmlHeadA ++ data.title ++ xhtmlHeadB ++ data.title ++ xhtmlHeadC
        ++ (if data.audioBlob.isSome then chapterAudioStr else "")) ++ r1,
      r2 ++ "</body></html>", ?_⟩
    unfold chapterXhtml
    rw [h]
    simp only [strAppend_assoc]
  · intro idx t hidx ht htne
    obtain ⟨r1, r2, h⟩ := paraBlocksHtml_contains_translation data.translations
      data.analyses data.paragraphAudioBlobs data.paragraphs 0 idx t
      (Nat.zero_le idx) (by omega) ht htne
    refine ⟨(xhtmlHeadA ++ data.title ++ xhtmlHeadB ++ data.title ++ xhtmlHeadC
        ++ (if data.audioBlob.isSome then chapterAudioStr else "")) ++ r1,
      r2 ++ "</body></html>", ?_⟩
    unfold chapterXhtml
    rw [h]
    simp only [strAppend_assoc]

/-- C10 witness: the paragraph and translation clauses instantiated on the
concrete request, with the markup-significant paragraph and translation
strings appearing verbatim in the generated chapter document. -/
theorem title_interpolated_verbatim_witness :
    (∃ r1 r2, chapterXhtml badParaReq = r1 ++ (paraWrapA ++ ("P & <br> </div>" ++ r2)))
    ∧ (∃ r1 r2, chapterXhtml badParaReq = r1 ++ (transA ++ ("t & </div> <b>" ++ r2))) :=
  ⟨(title_interpolated_verbatim "u" "m" badParaReq).2.2.1 "P & <br> </div>" (by decide),
   (title_interpolated_verbatim "u" "m" badParaReq).2.2.2.1 0 "t & </div> <b>"
     (by decide) rfl (by decide)⟩

/-- C4 (amended).  On a plain line (non-blank after trimming, no heading,
quote or rule prefix), the renderer wraps the line in a paragraph after
applying the inline replacements in the source order: bold spans first,
then italic spans, then code spans, each pass scanning the literal result
of the prior pass.  Consequently the input line containing `**x**` between
backticks yields a code span whose body is the bold span produced by the
earlier bold pass, not the literal text. -/
theorem inline_order_bold_italic_code (lineRaw : List Char)
    (h0 : (jsTrimList lineRaw).isEmpty = false)
    (h1 : listLeads "#### ".data (jsTrimList lineRaw) = false)
    (h2 : listLeads "### ".data (jsTrimList lineRaw) = false)
    (h3 : listLeads "## ".data (jsTrimList lineRaw) = false)
    (h4 : listLeads "# ".data (jsTrimList lineRaw) = false)
    (h5 : listLeads "> ".data (jsTrimList lineRaw) = false)
    (h6 : isHrChars (jsTrimList lineRaw) = false) :
    mdLine lineRaw
      = "<p style=\"margin-bottom: 0.8em;\">"
          ++ replaceCode (replaceItalic (replaceBold (String.mk (jsTrimList lineRaw))))
          ++ "</p>" := by
  simp only [mdLine, h0, h1, h2, h3, h4, h5, h6, Bool.false_eq_true, if_false]

/-- C4 witness: the plain line `hello *w*` goes through the paragraph
branch with the three inline passes. -/
theorem inline_order_bold_italic_code_witness :
    mdLine "hello *w*".data
      = "<p style=\"margin-bottom: 0.8em;\">"
          ++ replaceCode (replaceItalic (replaceBold (String.mk (jsTrimList "hello *w*".data))))
          ++ "</p>" :=
  inline_order_bold_italic_code "hello *w*".data rfl rfl rfl rfl rfl rfl rfl

/-- C4 counterexample: on the line with `**x**` between backticks the
rendered output is a code span containing a `<strong>` span — the bold
pass ran first and the code pass wrapped its output — not a code span
holding the literal text `**x**`. -/
theorem inline_order_counterexample :
    simpleMarkdownToHtml "`**x**`"
      = "<p style=\"margin-bottom: 0.8em;\"><code style=\"background: #fef3c7; color: #92400e; padding: 2px 4px; border-radius: 4px; font-family: monospace;\"><strong style=\"color: #451a03;\">x</strong></code></p>"
    ∧ subOccurs "<strong" (simpleMarkdownToHtml "`**x**`") = true
    ∧ subOccurs "**x**" (simpleMarkdownToHtml "`**x**`") = false :=
  ⟨rfl, rfl, rfl⟩

/-- C6 witness: the empty archive has no container descriptor, so the
parse fails with a FormatError. -/
theorem parse_format_error_iff_witness :
    ∃ e, parseEpubFile ([] : Archive) = Except.error e :=
  (parse_format_error_iff ([] : Archive)).mpr (Or.inl rfl)

end Novel
